import Mathlib

/-!
Verification development for the News-lab web-story pipeline (`app.py`).

The pipeline turns a news article into a narrated AMP web story in three
stages: article ingestion with LLM classification and script generation,
text-to-speech synthesis with object-storage upload, and AMP-HTML assembly
from a template.  External services (the LLM, the TTS endpoint, object
storage, the article fetcher, the sentiment library) are modelled as
oracle parameters; every data transform of the script itself is embedded
faithfully below, including Python string semantics (`str.strip`,
`str.replace`, `str.split`, slicing, `int()`), which are re-implemented
as structurally recursive functions so that the kernel can evaluate them.
-/

/-! ## Python string primitives -/

/-- Python `str.replace(pat, rep)` on character lists: replaces every
non-overlapping occurrence of `pat`, scanning left to right.  `fuel` is the
length of the subject string (each step consumes at least one character). -/
def replaceFuel (pat rep : List Char) : Nat → List Char → List Char
  | _, [] => []
  | 0, l => l
  | Nat.succ fuel, c :: rest =>
    if pat ≠ [] ∧ pat.isPrefixOf (c :: rest) then
      rep ++ replaceFuel pat rep fuel ((c :: rest).drop pat.length)
    else
      c :: replaceFuel pat rep fuel rest

/-- Python `s.replace(pat, rep)` (for nonempty `pat`, the only case used). -/
def pyReplace (s pat rep : String) : String :=
  ⟨replaceFuel pat.data rep.data s.data.length s.data⟩

/-- Python `s.strip(chars)`: drop characters belonging to `chars` from both
ends of `s`. -/
def pyStrip (s chars : String) : String :=
  ⟨((s.data.dropWhile chars.data.contains).reverse.dropWhile chars.data.contains).reverse⟩

/-- Python `s.strip()`: drop whitespace from both ends of `s`. -/
def pyStripWS (s : String) : String :=
  ⟨((s.data.dropWhile Char.isWhitespace).reverse.dropWhile Char.isWhitespace).reverse⟩

/-- Split a character list at every occurrence of the separator `c`. -/
def splitOnChar (c : Char) : List Char → List (List Char)
  | [] => [[]]
  | x :: rest =>
    match splitOnChar c rest with
    | [] => [[]]
    | h :: t => if x = c then [] :: h :: t else (x :: h) :: t

/-- Python `s.split(c)` for a one-character separator (the script only splits
on a newline). -/
def pySplit (s : String) (c : Char) : List String :=
  (splitOnChar c s.data).map (fun l => ⟨l⟩)

/-- Python `s[:n]` (a prefix of at most `n` characters). -/
def pySlice (s : String) (n : Nat) : String :=
  ⟨s.data.take n⟩

/-- Codepoint ranges of the characters Python's `int()` strips as whitespace
from both ends of its argument (the Unicode whitespace set of CPython's
integer parser, obtained by probing `int()` itself over every codepoint:
both `int(c + "5")` and `int("5" + c)` equal 5 exactly for these `c`). -/
def pyIntSpaceRanges : List (Nat × Nat) :=
  [(9, 13), (32, 32), (133, 133), (160, 160), (5760, 5760), (8192, 8202),
   (8232, 8233), (8239, 8239), (8287, 8287), (12288, 12288)]

def pyIntSpace (c : Char) : Bool :=
  pyIntSpaceRanges.any (fun p => decide (p.1 ≤ c.toNat) && decide (c.toNat ≤ p.2))

/-- Start codepoints of the Unicode decimal-digit (`Nd`) runs accepted by
Python's `int()`; each run is ten consecutive codepoints carrying the digit
values 0..9 (obtained by probing `int()` over every codepoint and checking
the run structure). -/
def ndDigitRunStarts : List Nat :=
  [48, 1632, 1776, 1984, 2406, 2534, 2662, 2790, 2918, 3046, 3174, 3302,
   3430, 3558, 3664, 3792, 3872, 4160, 4240, 6112, 6160, 6470, 6608, 6784,
   6800, 6992, 7088, 7232, 7248, 42528, 43216, 43264, 43472, 43504, 43600,
   44016, 65296, 66720, 68912, 69734, 69872, 69942, 70096, 70384, 70736,
   70864, 71248, 71360, 71472, 71904, 72016, 72784, 73040, 73120, 92768,
   92864, 93008, 120782, 120792, 120802, 120812, 120822, 123200, 123632,
   125264, 130032]

/-- Decimal value of a character under Python's `int()`: its offset inside
the Unicode `Nd` run containing it, `none` for a non-digit. -/
def pyDigitVal (c : Char) : Option Nat :=
  (ndDigitRunStarts.find? (fun s => decide (s ≤ c.toNat) && decide (c.toNat ≤ s + 9))).map
    (fun s => c.toNat - s)

/-- Continuation of a digit run whose leading digits already carry the value
`acc`: a single underscore is permitted only between two digits (PEP 515),
matching Python's `int()`. -/
def digitsUnderscoreVal : Nat → List Char → Option Nat
  | acc, [] => some acc
  | acc, '_' :: rest =>
    match rest with
    | [] => none
    | c :: rest2 =>
      match pyDigitVal c with
      | some d => digitsUnderscoreVal (acc * 10 + d) rest2
      | none => none
  | acc, c :: rest =>
    match pyDigitVal c with
    | some d => digitsUnderscoreVal (acc * 10 + d) rest
    | none => none

/-- Digit body of an `int()` argument after sign removal: a nonempty run of
Unicode decimal digits, it must start with a digit (not an underscore). -/
def pyIntBodyVal : List Char → Option Nat
  | [] => none
  | c :: rest =>
    match pyDigitVal c with
    | some d => digitsUnderscoreVal d rest
    | none => none

/-- Python `int(s)` for a string argument: surrounding whitespace is
stripped, one optional ASCII sign is allowed, then a nonempty run of Unicode
decimal digits with single underscores permitted between digits; on any
other input Python raises `ValueError`, modelled as `none`.  So `int(" 2")`
is `2`, `int("1_0")` is `10`, an Arabic-Indic digit is accepted, while
`int("")`, `int("x")`, `int("1__2")` and `int("1_")` raise. -/
def pyInt (s : String) : Option Int :=
  let body := ((s.data.dropWhile pyIntSpace).reverse.dropWhile pyIntSpace).reverse
  match body with
  | '-' :: rest => (pyIntBodyVal rest).map (fun n => -(n : Int))
  | '+' :: rest => (pyIntBodyVal rest).map (fun n => (n : Int))
  | l => (pyIntBodyVal l).map (fun n => (n : Int))

/-- The phrase of claim C10 taken literally: a decimal integer literal is an
optional ASCII sign followed by a nonempty run of ASCII digits (this is the
claim's scope predicate, kept for comparison with `pyInt`, which embeds what
`int()` actually accepts). -/
def isDecIntLiteral (s : String) : Bool :=
  let body :=
    match s.data with
    | '-' :: rest => rest
    | '+' :: rest => rest
    | l => l
  !body.isEmpty && body.all Char.isDigit

/-! ## JSON values

Results of Python `json.loads` are modelled as a small inductive type;
objects keep their fields as an ordered association list. -/

inductive Json where
  | null : Json
  | bool (b : Bool) : Json
  | num (n : Int) : Json
  | str (s : String) : Json
  | arr (elems : List Json) : Json
  | obj (fields : List (String × Json)) : Json

/-- Python `d[k]` / `k in d` lookup on a modelled JSON object field list. -/
def Json.lookup (fields : List (String × Json)) (k : String) : Option Json :=
  List.lookup k fields

/-! ## `get_sentiment` (app.py lines 56-64)

The polarity score computed by the external sentiment library is the input;
it is modelled as a rational (TextBlob returns a score in [-1, 1]).  The
thresholds `0.2` and `-0.2` are the script's literals. -/

def get_sentiment (polarity : ℚ) : String :=
  if polarity > 0.2 then "positive"
  else if polarity < -0.2 then "negative"
  else "neutral"

/-! ## `detect_category_and_subcategory` (app.py lines 66-104)

The LLM call is external; the modelled input is the assistant message
content (`response.choices[0].message.content`).  `json.loads` is the
oracle `json_loads : String → Option Json` (`none` models a raised
`json.JSONDecodeError`, the only exception `json.loads` raises on a `str`
argument).  The fence-stripping chain
`content.strip().strip("` ``` `json").strip("` ``` `").strip()` and the
`try/except` fallback are embedded literally. -/

def classificationFallback : Json :=
  Json.obj
    [("category", Json.str "Unknown"),
     ("subcategory", Json.str "General"),
     ("emotion", Json.str "Neutral")]

/-- Cleaning applied to the raw LLM message before parsing (line 94-95). -/
def cleanedClassifierContent (raw : String) : String :=
  pyStripWS (pyStrip (pyStrip (pyStripWS raw) "```json") "```")

def detect_category_and_subcategory (json_loads : String → Option Json) (raw : String) : Json :=
  match json_loads (cleanedClassifierContent raw) with
  | some j => j
  | none => classificationFallback

/-- Models `json.loads` at the single input of the C1 counterexample: the
response text is valid JSON, an object carrying only a `category` field
(Python: `json.loads` succeeds and yields that object). -/
def jsonLoadsFieldIncomplete : String → Option Json := fun s =>
  if s = "\x7b\"category\": \"X\"\x7d" then some (Json.obj [("category", Json.str "X")]) else none

/-- Models `json.loads` at a well-formed three-field classification response. -/
def jsonLoadsThreeField : String → Option Json := fun s =>
  if s = "\x7b\"category\": \"Politics\", \"subcategory\": \"Elections\", \"emotion\": \"Concern\"\x7d" then
    some (Json.obj [("category", Json.str "Politics"), ("subcategory", Json.str "Elections"),
      ("emotion", Json.str "Concern")])
  else none

/-! ## `title_script_generator` (app.py lines 106-189)

The outline LLM call and the per-slide narration LLM calls are external:
`slides_raw : Option (List OutlineEntry)` is the parsed `"slides"` field of
the outline response (`none` models the `try/except` path where parsing or
the `["slides"]` lookup raised), and `narrate : OutlineEntry → String` is
the narration model's reply for one outline entry. -/

structure OutlineEntry where
  title : String
  prompt : String
deriving DecidableEq, Repr

structure Slide where
  title : String
  prompt : String
  image_prompt : String
  script : String
deriving DecidableEq, Repr

structure StoryOutput where
  category : String
  subcategory : String
  emotion : String
  slides : List Slide
deriving DecidableEq, Repr

/-- Fixed greeting of the locally synthesized intro slide (line 150). -/
def introGreeting : String :=
  "Namaskar doston, main hoon Rohan Sharma. Aaj ki badi khabar: "

/-- Headline derivation (line 149):
`article_text.split("\n")[0].strip().replace(Chr 34, empty)`. -/
def headlineOf (article_text : String) : String :=
  pyReplace (pyStripWS ((pySplit article_text '\n').headD "")) "\"" ""

def title_script_generator (category subcategory emotion article_text : String)
    (slides_raw : Option (List OutlineEntry)) (narrate : OutlineEntry → String) :
    StoryOutput :=
  match slides_raw with
  | none =>
    { category := category, subcategory := subcategory, emotion := emotion, slides := [] }
  | some raw =>
    let headline := headlineOf article_text
    let slide1_script := introGreeting ++ headline
    let intro : Slide :=
      { title := pySlice headline 80,
        prompt := "Intro slide with greeting and headline.",
        image_prompt := "Vector-style illustration of Rohan Sharma presenting news: " ++ headline,
        script := slide1_script }
    { category := category, subcategory := subcategory, emotion := emotion,
      slides := intro :: raw.map (fun s =>
        { title := s.title,
          prompt := s.prompt,
          image_prompt := "Modern vector-style visual for: " ++ s.title,
          script := pyStripWS (narrate s) }) }

/-! ## `restructure_slide_output` (app.py lines 191-197)

`final_output.get("slides", [])` is modelled by an `Option` with default
`[]`; each slide of the pipeline always carries its `script` string, so
`slide.get("script", "")` is the `script` field. -/

def restructure_slide_output (slides_field : Option (List Slide)) :
    List (String × String) :=
  (slides_field.getD []).enum.map
    (fun p => ("s" ++ toString (p.1 + 1) ++ "paragraph1", pyStripWS p.2.script))

/-! ## `synthesize_and_upload` (app.py lines 199-251)

The TTS HTTP call and the object-storage upload are the oracles
`tts : String → Except String String` (`Except.error` models
`response.raise_for_status()` raising on a non-2xx status, `Except.ok`
carries the audio bytes) and `upload : String → Except String Unit`
(keyed by the local path; `Except.error` models `s3.upload_file`
raising).  `fname` models the per-iteration `"tts_" ++ uuid4.hex ++ ".mp3"`
filename as a function of the slide index.  The outcome records, besides
the returned mapping (or the propagated exception), the list of texts sent
to the TTS endpoint in order and the temporary files still on disk when
the function returns — the observable effects the claims are about. -/

structure SynthOutcome where
  ttsCalls : List String
  tempFiles : List String
  result : Except String (List (String × List (String × String)))
deriving Repr

def synth_loop (tts : String → Except String String) (upload : String → Except String Unit)
    (fname : Nat → String) (s3pre cdnBase voice : String) :
    List String → Nat → List String → List String →
    List (String × List (String × String)) → SynthOutcome
  | [], _, calls, files, acc => ⟨calls, files, Except.ok acc⟩
  | text :: rest, index, calls, files, acc =>
    let calls := calls ++ [text]
    match tts text with
    | Except.error e => ⟨calls, files, Except.error e⟩
    | Except.ok _audio =>
      let filename := fname index
      let local_path := "temp/" ++ filename
      let files := if local_path ∈ files then files else local_path :: files
      match upload local_path with
      | Except.error e => ⟨calls, files, Except.error e⟩
      | Except.ok _ =>
        let s3_key := s3pre ++ filename
        let cdn_url := cdnBase ++ s3_key
        let entry : List (String × String) :=
          [("s" ++ toString index ++ "paragraph1", text),
           ("audio_url" ++ toString index, cdn_url),
           ("voice", voice)]
        synth_loop tts upload fname s3pre cdnBase voice rest (index + 1) calls
          (files.erase local_path) (acc ++ [("slide" ++ toString index, entry)])

/-- `synthesize_and_upload(paragraphs, voice)`: iterates over
`paragraphs.values()` (the input keys are ignored), starting the slide index
at 2. -/
def synthesize_and_upload (paragraphs : List (String × String)) (voice : String)
    (tts : String → Except String String) (upload : String → Except String Unit)
    (fname : Nat → String) (s3pre cdnBase : String) : SynthOutcome :=
  synth_loop tts upload fname s3pre cdnBase voice (paragraphs.map Prod.snd) 2 [] [] []

/-! ## AMP assembly (app.py lines 333-447, the `with tab3:` block)

`generate_slide` interpolates exactly two values into a fixed markup
skeleton; the skeleton is embedded verbatim (braces written as escapes). -/

def ampSlidePart1 : String :=
  "\n        <amp-story-page id=\"c29cbf94-847a-4bb7-a4eb-47d17d8c2d5a\" auto-advance-after=\"page-c29cbf94-847a-4bb7-a4eb-47d17d8c2d5a-background-audio\" class=\"i-amphtml-layout-container\" i-amphtml-layout=\"container\">\n            <amp-story-animation layout=\"nodisplay\" trigger=\"visibility\" hidden=\"hidden\">\n                <script type=\"application/json\">[\x7b\"selector\":\"#anim-1a95e072-cada-435a-afea-082ddd65ff10\",\"keyframes\":\x7b\"opacity\":[0,1]\x7d,\"delay\":0,\"duration\":600\x7d]</script>\n            </amp-story-animation>\n            <amp-story-animation layout=\"nodisplay\" trigger=\"visibility\" hidden=\"hidden\">\n                <script type=\"application/json\">[\x7b\"selector\":\"#anim-a938fe3f-03cf-47c5-9a84-da919c4f870b\",\"keyframes\":\x7b\"transform\":[\"translate3d(-115.2381%, 0px, 0)\",\"translate3d(0px, 0px, 0)\"]\x7d,\"delay\":0,\"duration\":600\x7d]</script>\n            </amp-story-animation>\n            <amp-story-animation layout=\"nodisplay\" trigger=\"visibility\" hidden=\"hidden\">\n                <script type=\"application/json\">[\x7b\"selector\":\"#anim-f7c5981e-ac77-48d5-9b40-7a987a3e2ab0\",\"keyframes\":\x7b\"opacity\":[0,1]\x7d,\"delay\":0,\"duration\":600\x7d]</script>\n            </amp-story-animation>\n            <amp-story-animation layout=\"nodisplay\" trigger=\"visibility\" hidden=\"hidden\">\n                <script type=\"application/json\">[\x7b\"selector\":\"#anim-0c1e94dd-ab91-415c-9372-0aa2e7e61630\",\"keyframes\":\x7b\"transform\":[\"translate3d(-115.55555%, 0px, 0)\",\"translate3d(0px, 0px, 0)\"]\x7d,\"delay\":0,\"duration\":600\x7d]</script>\n            </amp-story-animation>\n            <amp-story-grid-layer template=\"vertical\" aspect-ratio=\"412:618\" class=\"grid-layer\" style=\"--aspect-ratio:412/618;\">\n                <div class=\"_f09cc7b page-fullbleed-area\">\n                    <div class=\"page-safe-area\">\n                        <div class=\"_6120891\">\n                            <div class=\"_89d52dd mask\" id=\"el-f00095ab-c147-4f19-9857-72ac678f953f\">\n                                <div class=\"_dc67a5c fill\"></div>\n                            </div>\n                        </div>\n                    </div>\n                </div>\n            </amp-story-grid-layer>\n            <amp-story-grid-layer template=\"fill\">\n                <amp-video autoplay layout=\"fixed\" width=\"1\" height=\"1\" poster=\"\" id=\"page-c29cbf94-847a-4bb7-a4eb-47d17d8c2d5a-background-audio\" cache=\"google\" style=\"width:1px;height:1px\">\n                    <source type=\"audio/mpeg\" src=\""

def ampSlidePart2 : String :=
  "\">\n                </amp-video>\n            </amp-story-grid-layer>\n            <amp-story-grid-layer template=\"vertical\" aspect-ratio=\"412:618\" class=\"grid-layer\" style=\"--aspect-ratio:412/618;\">\n                <div class=\"page-fullbleed-area\">\n                    <div class=\"page-safe-area\">\n                        <div class=\"_c19e533\">\n                            <div class=\"_89d52dd mask\" id=\"el-344ed989-789b-4a01-a124-9ae1d15d67f4\">\n                                <div data-leaf-element=\"true\" class=\"_8aed44c\">\n                                    <amp-img layout=\"fill\" src=\"https://media.suvichaar.org/upload/polaris/polarisslide.png\" alt=\"polarisslide.png\" disable-inline-width=\"true\"></amp-img>\n                                </div>\n                            </div>\n                        </div>\n                        <div class=\"_3d0c7a9\">\n                            <div id=\"anim-1a95e072-cada-435a-afea-082ddd65ff10\" class=\"_75da10d animation-wrapper\">\n                                <div id=\"anim-a938fe3f-03cf-47c5-9a84-da919c4f870b\" class=\"_e559378 animation-wrapper\">\n                                    <div id=\"el-2f080472-6c81-40a1-ac00-339cc8981388\" class=\"_5342a26\">\n                                        <h3 class=\"_d1a8d0d fill text-wrapper\"><span><span class=\"_14af73e\">"

def ampSlidePart3 : String :=
  "</span></span></h3>\n                                    </div>\n                                </div>\n                            </div>\n                        </div>\n                        <div class=\"_a336742\">\n                            <div id=\"anim-f7c5981e-ac77-48d5-9b40-7a987a3e2ab0\" class=\"_75da10d animation-wrapper\">\n                                <div id=\"anim-0c1e94dd-ab91-415c-9372-0aa2e7e61630\" class=\"_09239f8 animation-wrapper\">\n                                    <div id=\"el-1a0d583c-c99b-4156-825b-3188408c0551\" class=\"_ee8f788\">\n                                        <h2 class=\"_59f9bb8 fill text-wrapper\"><span><span class=\"_14af73e\"></span></span></h2>\n                                    </div>\n                                </div>\n                            </div>\n                        </div>\n                    </div>\n                </div>\n            </amp-story-grid-layer>\n        </amp-story-page>\n        "

def generate_slide (paragraph audio_url : String) : String :=
  ampSlidePart1 ++ audio_url ++ ampSlidePart2 ++ paragraph ++ ampSlidePart3

/-- Substring containment, Python `sub in s` on character lists. -/
def containsSub (sub : List Char) : List Char → Bool
  | [] => sub.isEmpty
  | c :: rest => sub.isPrefixOf (c :: rest) || containsSub sub rest

/-- Python `sub in s` for strings. -/
def pyContains (s sub : String) : Bool :=
  containsSub sub.data s.data

def placeholderMarker : String := "<!--INSERT_SLIDES_HERE-->"

/-- Sort key of the assembly loop (line 422):
`int(x.replace("slide", ""))`; `none` models the raised `ValueError`. -/
def slideSortKey (x : String) : Option Int :=
  pyInt (pyReplace x "slide" "")

/-- Paragraph normalization of line 429: replace the right single quote
(U+2019) by an apostrophe, then escape double quotes for HTML. -/
def ampEscape (paragraph : String) : String :=
  pyReplace (pyReplace paragraph "’" "\x27") "\"" "&quot;"

/-- Body of one iteration of the assembly loop (lines 423-431): looks up the
slide's paragraph and audio-URL fields by index-derived names and renders the
fragment, or contributes nothing when either field is missing. -/
def ampRenderKey (output_data : List (String × List (String × String)))
    (key : String) : String :=
  let slide_num := pyReplace key "slide" ""
  match List.lookup key output_data with
  | none => ""
  | some data =>
    match List.lookup ("s" ++ slide_num ++ "paragraph1") data,
          List.lookup ("audio_url" ++ slide_num) data with
    | some ptext, some audio_url => generate_slide (ampEscape ptext) audio_url
    | _, _ => ""

/-- `sorted(output_data.keys(), key=lambda x: int(x.replace("slide", "")))`,
given that every key's sort key is defined.  Insertion sort by `le` is
stable, matching Python's stable sort. -/
def ampSortedKeys (output_data : List (String × List (String × String))) :
    List String :=
  (output_data.map Prod.fst).insertionSort
    (fun a b => (slideSortKey a).getD 0 ≤ (slideSortKey b).getD 0)

/-- The loop of lines 421-431: `sorted` evaluates the sort key of every key
first and raises `ValueError` (modelled `Except.error`) if any is malformed;
otherwise the fragments are concatenated over the keys in sorted order. -/
def ampAllSlides (output_data : List (String × List (String × String))) :
    Except String String :=
  if (output_data.map Prod.fst).all (fun k => (slideSortKey k).isSome) then
    Except.ok ((ampSortedKeys output_data).foldl
      (fun acc k => acc ++ ampRenderKey output_data k) "")
  else Except.error "invalid literal for int() with base 10"

/-- The `with tab3:` assembly stage (lines 414-447) given the template text
and the result of `json.load` on the uploaded file (`Except.error` models a
JSON parse failure).  Any exception inside the `try` block is caught at line
446 and surfaced as a user-facing error message with no HTML output; a
missing placeholder is reported at line 419, also with no HTML output. -/
def tab3_amp (template_html : String)
    (parsed_upload : Except String (List (String × List (String × String)))) :
    Except String String :=
  match parsed_upload with
  | Except.error e => Except.error ("Error: " ++ e)
  | Except.ok output_data =>
    if pyContains template_html placeholderMarker then
      match ampAllSlides output_data with
      | Except.error e => Except.error ("Error: " ++ e)
      | Except.ok all_slides =>
        Except.ok (pyReplace template_html placeholderMarker all_slides)
    else
      Except.error "Placeholder <!--INSERT_SLIDES_HERE--> not found in test.html."

/-! ## Top-level tab bindings (app.py lines 254, 256, 306, 333)

Line 254 destructures `st.tabs` (which returns one handle per label) into
the two names `tab1, tab2`; the script then opens three `with` blocks whose
context-manager expressions are the names `tab1`, `tab2`, `tab3` in source
order.  Evaluating a name that is not bound raises `NameError` in Python;
the mini-interpreter below runs the sequence of `with` statements over the
set of bound names, counting the blocks whose context manager evaluated
successfully. -/

def tabsLabels : List String :=
  ["📰 Web Story Prompt Generator", "🔊 TTS + S3 Upload"]

/-- Names bound by the tuple assignment `tab1, tab2 = st.tabs(...)`. -/
def tabsAssignTargets : List String := ["tab1", "tab2"]

/-- Names referenced as `with <name>:` context managers, in source order
(lines 256, 306, 333). -/
def withBlockNames : List String := ["tab1", "tab2", "tab3"]

/-- Python name lookup: `none` on success, a `NameError` message otherwise. -/
def pyLookupName (env : List String) (n : String) : Option String :=
  if n ∈ env then none
  else some ("NameError: name \x27" ++ n ++ "\x27 is not defined")

structure ScriptRun where
  entered : Nat
  failure : Option String
deriving DecidableEq, Repr

/-- Run the `with` blocks in order: stop at the first unbound name. -/
def runWithBlocks (env : List String) : List String → Nat → ScriptRun
  | [], entered => ⟨entered, none⟩
  | n :: rest, entered =>
    match pyLookupName env n with
    | some e => ⟨entered, some e⟩
    | none => runWithBlocks env rest (entered + 1)


/-! ## Helper lemmas -/

instance exceptDecEq {ε α : Type} [DecidableEq ε] [DecidableEq α] : DecidableEq (Except ε α) := fun a b =>
  match a, b with
  | Except.error e, Except.error f => decidable_of_iff (e = f) (by simp)
  | Except.error _, Except.ok _ => Decidable.isFalse (by simp)
  | Except.ok _, Except.error _ => Decidable.isFalse (by simp)
  | Except.ok a, Except.ok b => decidable_of_iff (a = b) (by simp)

theorem string_nil_append (s : String) : "" ++ s = s := by
  cases s
  rfl

theorem string_append_nil (s : String) : s ++ "" = s := by
  cases s with
  | mk l => exact congrArg String.mk (List.append_nil l)

theorem toDigitsCore_length_le (b f : Nat) :
    ∀ (n : Nat) (acc : List Char), acc.length ≤ (Nat.toDigitsCore b f n acc).length := by
  induction f with
  | zero => intro n acc; simp [Nat.toDigitsCore]
  | succ f ih =>
    intro n acc
    simp only [Nat.toDigitsCore]
    split
    · simp
    · exact le_trans (by simp) (ih (n / b) (Nat.digitChar (n % b) :: acc))

theorem toDigitsCore_length_lt (b f : Nat) (hf : 1 ≤ f) (n : Nat) (acc : List Char) :
    acc.length + 1 ≤ (Nat.toDigitsCore b f n acc).length := by
  cases f with
  | zero => omega
  | succ f =>
    simp only [Nat.toDigitsCore]
    split
    · simp
    · exact le_trans (by simp) (toDigitsCore_length_le b f (n / b) (Nat.digitChar (n % b) :: acc))

/-- A decimal rendering of `n ≥ 2` is never the string `"1"`. -/
theorem nat_repr_ne_one {n : Nat} (h : 2 ≤ n) : Nat.repr n ≠ "1" := by
  by_cases hn : n < 10
  · interval_cases n <;> decide
  · intro he
    have hd : Nat.toDigits 10 n = ['1'] := congrArg String.data he
    have h10 : ¬ n / 10 = 0 := by omega
    have hunf : Nat.toDigits 10 n =
        Nat.toDigitsCore 10 n (n / 10) [Nat.digitChar (n % 10)] := by
      show Nat.toDigitsCore 10 (n + 1) n [] = _
      simp only [Nat.toDigitsCore]
      simp [h10]
    have hlen := toDigitsCore_length_lt 10 n (by omega) (n / 10) [Nat.digitChar (n % 10)]
    rw [← hunf, hd] at hlen
    simp at hlen

/-- No generated TTS output key is ever the string `"slide1"`. -/
theorem slide_key_ne_slide1 (i : Nat) : "slide" ++ toString (i + 2) ≠ "slide1" := by
  intro h
  have hdata : "slide".data ++ (toString (i + 2)).data = "slide".data ++ "1".data :=
    congrArg String.data h
  have h2 : (toString (i + 2)).data = "1".data := List.append_cancel_left hdata
  exact nat_repr_ne_one (n := i + 2) (by omega) (congrArg String.mk h2)

theorem synth_loop_ok_keys (tts : String → Except String String)
    (up : String → Except String Unit) (fn : Nat → String) (p3 c3 v : String) :
    ∀ (texts : List String) (idx : Nat) (calls files : List String)
      (acc : List (String × List (String × String))) (r : List (String × List (String × String))),
      (synth_loop tts up fn p3 c3 v texts idx calls files acc).result = Except.ok r →
      r.map Prod.fst = acc.map Prod.fst ++
        (List.range texts.length).map (fun i => "slide" ++ toString (idx + i)) := by
  intro texts
  induction texts with
  | nil =>
    intro idx calls files acc r h
    simp only [synth_loop] at h
    obtain rfl : acc = r := by simpa using h
    simp
  | cons text rest ih =>
    intro idx calls files acc r h
    simp only [synth_loop] at h
    cases htts : tts text with
    | error e => rw [htts] at h; simp at h
    | ok audio =>
      rw [htts] at h
      cases hup : up ("temp/" ++ fn idx) with
      | error e => rw [hup] at h; simp at h
      | ok u =>
        rw [hup] at h
        have hkeys := ih (idx + 1) _ _ _ r h
        rw [hkeys]
        have harith : ∀ i : Nat, idx + 1 + i = idx + (i + 1) := by omega
        simp [List.range_succ_eq_map, List.map_map, harith, Function.comp]

theorem synth_loop_tts_error (tts : String → Except String String)
    (up : String → Except String Unit) (fn : Nat → String) (p3 c3 v e : String)
    (hup : ∀ p, up p = Except.ok ()) (bad : String) (hbad : tts bad = Except.error e) :
    ∀ (pres post : List String) (idx : Nat) (calls files : List String)
      (acc : List (String × List (String × String))),
      (∀ t ∈ pres, ∃ a, tts t = Except.ok a) →
      (synth_loop tts up fn p3 c3 v (pres ++ bad :: post) idx calls files acc).result =
          Except.error e ∧
      (synth_loop tts up fn p3 c3 v (pres ++ bad :: post) idx calls files acc).ttsCalls =
          calls ++ pres ++ [bad] := by
  intro pres
  induction pres with
  | nil =>
    intro post idx calls files acc _
    simp [synth_loop, hbad]
  | cons t ts ih =>
    intro post idx calls files acc hok
    obtain ⟨a, ha⟩ := hok t (List.mem_cons_self t ts)
    have hfor : ∀ x ∈ ts, ∃ a, tts x = Except.ok a :=
      fun x hx => hok x (List.mem_cons_of_mem t hx)
    simp only [List.cons_append, synth_loop, ha, hup]
    refine ⟨(ih post (idx + 1) (calls ++ [t]) _ _ hfor).1, ?_⟩
    exact ((ih post (idx + 1) (calls ++ [t]) _ _ hfor).2).trans (by simp)

theorem synth_loop_all_ok_clean (tts : String → Except String String)
    (up : String → Except String Unit) (fn : Nat → String) (p3 c3 v : String)
    (htts : ∀ t, ∃ a, tts t = Except.ok a) (hup : ∀ p, up p = Except.ok ()) :
    ∀ (texts : List String) (idx : Nat) (calls : List String)
      (acc : List (String × List (String × String))),
      (synth_loop tts up fn p3 c3 v texts idx calls [] acc).tempFiles = [] ∧
      ∃ r, (synth_loop tts up fn p3 c3 v texts idx calls [] acc).result = Except.ok r := by
  intro texts
  induction texts with
  | nil => intro idx calls acc; simp [synth_loop]
  | cons text rest ih =>
    intro idx calls acc
    obtain ⟨a, ha⟩ := htts text
    simp only [synth_loop, ha, hup, List.not_mem_nil, if_false, List.erase_cons_head]
    exact ih (idx + 1) _ _

theorem synth_loop_upload_fail_leak (tts : String → Except String String)
    (up : String → Except String Unit) (fn : Nat → String) (p3 c3 v e : String)
    (htts : ∀ t, ∃ a, tts t = Except.ok a) :
    ∀ (texts : List String) (k idx : Nat) (calls : List String)
      (acc : List (String × List (String × String))),
      k < texts.length →
      (∀ j, j < k → up ("temp/" ++ fn (idx + j)) = Except.ok ()) →
      up ("temp/" ++ fn (idx + k)) = Except.error e →
      (synth_loop tts up fn p3 c3 v texts idx calls [] acc).tempFiles =
          ["temp/" ++ fn (idx + k)] ∧
      (synth_loop tts up fn p3 c3 v texts idx calls [] acc).result = Except.error e := by
  intro texts
  induction texts with
  | nil => intro k idx calls acc hk _ _; simp at hk
  | cons text rest ih =>
    intro k idx calls acc hk hpre hbad
    obtain ⟨a, ha⟩ := htts text
    cases k with
    | zero =>
      simp only [Nat.add_zero] at hbad
      simp [synth_loop, ha, hbad]
    | succ k =>
      have h0 : up ("temp/" ++ fn (idx + 0)) = Except.ok () := hpre 0 (Nat.succ_pos k)
      rw [Nat.add_zero] at h0
      simp only [synth_loop, ha, h0, List.not_mem_nil, if_false, List.erase_cons_head]
      rw [show idx + (k + 1) = idx + 1 + k by omega]
      exact ih k (idx + 1) _ _ (by simpa using hk)
        (fun j hj => by
          have hj2 := hpre (j + 1) (by omega)
          rwa [show idx + (j + 1) = idx + 1 + j by omega] at hj2)
        (by rwa [show idx + (k + 1) = idx + 1 + k by omega] at hbad)

/-! ## Claim theorems -/

/-- C1 (counterexample): the claim asserts that a response parsing as a valid
JSON object that misses one of the three fields yields the fixed fallback;
on the concrete response holding only a `category` field the function
returns the parsed one-field object unchanged, which differs from the
fallback — so the claim is false as stated. -/
theorem C1_cex_field_incomplete :
    detect_category_and_subcategory jsonLoadsFieldIncomplete "\x7b\"category\": \"X\"\x7d" =
      Json.obj [("category", Json.str "X")] ∧
    Json.obj [("category", Json.str "X")] ≠ classificationFallback :=
  ⟨rfl, by simp [classificationFallback]⟩

/-- C1 (amended): `detect_category_and_subcategory` returns the parsed value
unchanged whenever the cleaned response parses as JSON — including objects
missing some of the three fields — and returns the fixed fallback
`{"Unknown","General","Neutral"}` exactly when parsing fails, never
propagating the parse error. -/
theorem C1_classifier_fallback (json_loads : String → Option Json) (raw : String) :
    (∀ j, json_loads (cleanedClassifierContent raw) = some j →
      detect_category_and_subcategory json_loads raw = j) ∧
    (json_loads (cleanedClassifierContent raw) = none →
      detect_category_and_subcategory json_loads raw = classificationFallback) := by
  constructor
  · intro j hj
    simp [detect_category_and_subcategory, hj]
  · intro hn
    simp [detect_category_and_subcategory, hn]

/-- C1 (witness): the amended theorem applied at a three-field response and at
an unparseable response. -/
theorem C1_classifier_fallback_witness :
    detect_category_and_subcategory jsonLoadsThreeField
      "\x7b\"category\": \"Politics\", \"subcategory\": \"Elections\", \"emotion\": \"Concern\"\x7d" =
      Json.obj [("category", Json.str "Politics"), ("subcategory", Json.str "Elections"),
        ("emotion", Json.str "Concern")] ∧
    detect_category_and_subcategory (fun _ => none) "not json" = classificationFallback :=
  ⟨(C1_classifier_fallback jsonLoadsThreeField
      "\x7b\"category\": \"Politics\", \"subcategory\": \"Elections\", \"emotion\": \"Concern\"\x7d").1 _ rfl,
   (C1_classifier_fallback (fun _ => none) "not json").2 rfl⟩

/-- C2: for every input mapping of narration paragraphs and every successful
run, the returned mapping's keys are exactly `slide2 .. slide(N+1)` in order,
numbering starting at 2 and incrementing by 1 per paragraph in iteration
order, independent of the input's key names; no `slide1` entry is ever
produced. -/
theorem C2_tts_key_numbering (paragraphs : List (String × String)) (voice : String)
    (tts : String → Except String String) (upload : String → Except String Unit)
    (fname : Nat → String) (s3pre cdnBase : String)
    (r : List (String × List (String × String)))
    (h : (synthesize_and_upload paragraphs voice tts upload fname s3pre cdnBase).result =
      Except.ok r) :
    r.map Prod.fst =
      (List.range paragraphs.length).map (fun i => "slide" ++ toString (i + 2)) ∧
    "slide1" ∉ r.map Prod.fst := by
  have hkeys := synth_loop_ok_keys tts upload fname s3pre cdnBase voice
    (paragraphs.map Prod.snd) 2 [] [] [] r h
  simp only [List.map_nil, List.nil_append, List.length_map] at hkeys
  have harith : ∀ i : Nat, 2 + i = i + 2 := fun i => by omega
  rw [hkeys]
  constructor
  · simp [harith]
  · simp only [List.mem_map]
    rintro ⟨i, hi, hkey⟩
    exact slide_key_ne_slide1 i (by rwa [harith] at hkey)

/-- C2 (witness): three input paragraphs with unrelated key names produce
exactly the keys `slide2, slide3, slide4`. -/
theorem C2_tts_key_numbering_witness :
    [("slide2", [("s2paragraph1", "a"), ("audio_url2", "cdn/pre/f2.mp3"), ("voice", "nova")]),
     ("slide3", [("s3paragraph1", "b"), ("audio_url3", "cdn/pre/f3.mp3"), ("voice", "nova")]),
     ("slide4", [("s4paragraph1", "c"), ("audio_url4", "cdn/pre/f4.mp3"), ("voice", "nova")])].map
        Prod.fst =
      (List.range ([("p1", "a"), ("p9", "b"), ("x", "c")] :
          List (String × String)).length).map (fun i => "slide" ++ toString (i + 2)) ∧
    "slide1" ∉
      [("slide2", [("s2paragraph1", "a"), ("audio_url2", "cdn/pre/f2.mp3"), ("voice", "nova")]),
       ("slide3", [("s3paragraph1", "b"), ("audio_url3", "cdn/pre/f3.mp3"), ("voice", "nova")]),
       ("slide4", [("s4paragraph1", "c"), ("audio_url4", "cdn/pre/f4.mp3"), ("voice", "nova")])].map
          Prod.fst :=
  C2_tts_key_numbering [("p1", "a"), ("p9", "b"), ("x", "c")] "nova"
    (fun _ => Except.ok "audio") (fun _ => Except.ok ())
    (fun i => "f" ++ toString i ++ ".mp3") "pre/" "cdn/" _ (by decide)

/-- C3: for every article text and every parsed outline of N entries the
generator returns N+1 slides; the first slide is synthesized locally (its
value does not depend on the narration oracle): its script is the fixed
greeting followed by the headline (the article's first line, whitespace
trimmed, double quotes removed) and its title is that headline truncated to
80 characters.  In particular, with `full_text = "Line1\nLine2"` and a
4-entry outline the result has exactly 5 slides and the first script is the
greeting followed by `Line1`. -/
theorem C3_script_gen_intro (cat sub emo article : String) (raw : List OutlineEntry)
    (narrate : OutlineEntry → String) :
    (title_script_generator cat sub emo article (some raw) narrate).slides.length
        = raw.length + 1 ∧
    ((title_script_generator cat sub emo article (some raw) narrate).slides.headD
        ⟨"", "", "", ""⟩).script = introGreeting ++ headlineOf article ∧
    ((title_script_generator cat sub emo article (some raw) narrate).slides.headD
        ⟨"", "", "", ""⟩).title = pySlice (headlineOf article) 80 ∧
    headlineOf "Line1\nLine2" = "Line1" ∧
    (title_script_generator "Politics" "Elections" "Concern" "Line1\nLine2"
        (some [⟨"T1", "P1"⟩, ⟨"T2", "P2"⟩, ⟨"T3", "P3"⟩, ⟨"T4", "P4"⟩])
        narrate).slides.length = 5 ∧
    ((title_script_generator "Politics" "Elections" "Concern" "Line1\nLine2"
        (some [⟨"T1", "P1"⟩, ⟨"T2", "P2"⟩, ⟨"T3", "P3"⟩, ⟨"T4", "P4"⟩])
        narrate).slides.headD ⟨"", "", "", ""⟩).script =
      "Namaskar doston, main hoon Rohan Sharma. Aaj ki badi khabar: Line1" := by
  refine ⟨?_, ?_, ?_, by decide, ?_, ?_⟩
  · simp [title_script_generator]
  · simp [title_script_generator]
  · simp [title_script_generator]
  · simp [title_script_generator]
  · simp only [title_script_generator, List.headD_cons]
    rw [show headlineOf "Line1\nLine2" = "Line1" from by decide]
    decide

/-- C4: for every `final_output`, `restructure_slide_output` has exactly one
entry per slide, with keys `s1paragraph1 .. s{L}paragraph1` (1-based,
contiguous, in order) and with the i-th value equal to the i-th slide's
script with surrounding whitespace removed; an empty script is emitted
unvalidated. -/
theorem C4_restructure_keys_values (slides_field : Option (List Slide)) :
    (restructure_slide_output slides_field).length = (slides_field.getD []).length ∧
    (restructure_slide_output slides_field).map Prod.fst =
      (List.range (slides_field.getD []).length).map
        (fun i => "s" ++ toString (i + 1) ++ "paragraph1") ∧
    (∀ i : Nat, (restructure_slide_output slides_field).get? i =
      ((slides_field.getD []).get? i).map
        (fun sl => ("s" ++ toString (i + 1) ++ "paragraph1", pyStripWS sl.script))) ∧
    restructure_slide_output (some [⟨"t", "p", "ip", ""⟩]) = [("s1paragraph1", "")] := by
  refine ⟨?_, ?_, ?_, by decide⟩
  · simp [restructure_slide_output]
  · simp only [restructure_slide_output, List.map_map, ← List.enum_map_fst]
    rfl
  · intro i
    simp [restructure_slide_output, List.get?_eq_getElem?, List.getElem?_map,
      List.getElem?_enum, Option.map_map]
    rfl

/-- C5: the assembly loop orders slides by the numeric value of each key's
trailing digits, not by the mapping's iteration order: the processed key
sequence is always sorted by that numeric value, and for the input whose
iteration order is `slide10, slide2` the fragment of `slide2` is rendered
before the fragment of `slide10`. -/
theorem C5_amp_numeric_order :
    (∀ (output_data : List (String × List (String × String))),
      List.Sorted (fun a b : String => (slideSortKey a).getD 0 ≤ (slideSortKey b).getD 0)
        (ampSortedKeys output_data)) ∧
    ampSortedKeys
        [("slide10", [("s10paragraph1", "A"), ("audio_url10", "uA")]),
         ("slide2", [("s2paragraph1", "B"), ("audio_url2", "uB")])] = ["slide2", "slide10"] ∧
    ampAllSlides
        [("slide10", [("s10paragraph1", "A"), ("audio_url10", "uA")]),
         ("slide2", [("s2paragraph1", "B"), ("audio_url2", "uB")])] =
      Except.ok (generate_slide "B" "uB" ++ generate_slide "A" "uA") := by
  refine ⟨?_, by decide, ?_⟩
  · intro output_data
    haveI : IsTotal String
        (fun a b : String => (slideSortKey a).getD 0 ≤ (slideSortKey b).getD 0) :=
      ⟨fun a b => le_total _ _⟩
    haveI : IsTrans String
        (fun a b : String => (slideSortKey a).getD 0 ≤ (slideSortKey b).getD 0) :=
      ⟨fun a b c hab hbc => le_trans hab hbc⟩
    exact List.sorted_insertionSort _ _
  · have base : ampAllSlides
        [("slide10", [("s10paragraph1", "A"), ("audio_url10", "uA")]),
         ("slide2", [("s2paragraph1", "B"), ("audio_url2", "uB")])] =
        Except.ok (("" ++ generate_slide (ampEscape "B") "uB") ++
          generate_slide (ampEscape "A") "uA") := rfl
    rw [base, string_nil_append, show ampEscape "B" = "B" from by decide,
      show ampEscape "A" = "A" from by decide]

/-- C6: `get_sentiment` yields `"positive"` iff the polarity exceeds `0.2`,
`"negative"` iff it is below `-0.2`, and `"neutral"` otherwise; both strict
boundary values map to `"neutral"`. -/
theorem C6_sentiment_thresholds (p : ℚ) :
    (get_sentiment p = "positive" ↔ p > 0.2) ∧
    (get_sentiment p = "negative" ↔ p < -0.2) ∧
    (get_sentiment p = "neutral" ↔ ¬ p > 0.2 ∧ ¬ p < -0.2) ∧
    get_sentiment (0.2 : ℚ) = "neutral" ∧ get_sentiment (-0.2 : ℚ) = "neutral" := by
  have hb1 : get_sentiment (0.2 : ℚ) = "neutral" := by norm_num [get_sentiment]
  have hb2 : get_sentiment (-0.2 : ℚ) = "neutral" := by norm_num [get_sentiment]
  refine ⟨?_, ?_, ?_, hb1, hb2⟩ <;>
  · by_cases h1 : p > 0.2
    · have h2 : ¬ p < -0.2 := by linarith
      simp [get_sentiment, h1, h2]
    · by_cases h2 : p < -0.2 <;> simp [get_sentiment, h1, h2]

/-- C7: a TTS failure (non-2xx status, `raise_for_status`) on any paragraph
propagates and aborts the whole batch: the run returns the error (no result
mapping, so no partial result for the already-processed paragraphs is
offered), and the TTS endpoint was called once per paragraph up to and
including the failing one — no retry, nothing after it. -/
theorem C7_tts_error_aborts (paragraphs : List (String × String)) (voice : String)
    (tts : String → Except String String) (upload : String → Except String Unit)
    (fname : Nat → String) (s3pre cdnBase e : String)
    (pres : List String) (bad : String) (post : List String)
    (hsplit : paragraphs.map Prod.snd = pres ++ bad :: post)
    (hok : ∀ t ∈ pres, ∃ a, tts t = Except.ok a)
    (hbad : tts bad = Except.error e)
    (hup : ∀ p, upload p = Except.ok ()) :
    (synthesize_and_upload paragraphs voice tts upload fname s3pre cdnBase).result =
      Except.error e ∧
    (synthesize_and_upload paragraphs voice tts upload fname s3pre cdnBase).ttsCalls =
      pres ++ [bad] := by
  unfold synthesize_and_upload
  rw [hsplit]
  have := synth_loop_tts_error tts upload fname s3pre cdnBase voice e hup bad hbad
    pres post 2 [] [] [] hok
  simpa using this

/-- C7 (witness): three paragraphs whose second TTS call returns HTTP 500. -/
theorem C7_tts_error_aborts_witness :
    (synthesize_and_upload [("k1", "a"), ("k2", "b"), ("k3", "c")] "nova"
      (fun t => if t = "b" then Except.error "HTTP 500" else Except.ok "audio")
      (fun _ => Except.ok ()) (fun i => "f" ++ toString i ++ ".mp3") "pre/" "cdn/").result =
      Except.error "HTTP 500" ∧
    (synthesize_and_upload [("k1", "a"), ("k2", "b"), ("k3", "c")] "nova"
      (fun t => if t = "b" then Except.error "HTTP 500" else Except.ok "audio")
      (fun _ => Except.ok ()) (fun i => "f" ++ toString i ++ ".mp3") "pre/" "cdn/").ttsCalls =
      ["a"] ++ ["b"] :=
  C7_tts_error_aborts [("k1", "a"), ("k2", "b"), ("k3", "c")] "nova"
    (fun t => if t = "b" then Except.error "HTTP 500" else Except.ok "audio")
    (fun _ => Except.ok ()) (fun i => "f" ++ toString i ++ ".mp3") "pre/" "cdn/" "HTTP 500"
    ["a"] "b" ["c"] (by decide)
    (by intro t ht; simp only [List.mem_singleton] at ht; subst ht; exact ⟨"audio", rfl⟩)
    rfl (fun p => rfl)

/-- C8: on a fully successful run no temporary file outlives its own
iteration (the working directory ends empty), but deletion is not guaranteed
on failure: if the upload of the k-th paragraph's file raises, that file is
left on disk (leaked) while the run aborts with the upload error. -/
theorem C8_temp_file_lifecycle (paragraphs : List (String × String)) (voice : String)
    (tts : String → Except String String) (upload : String → Except String Unit)
    (fname : Nat → String) (s3pre cdnBase : String)
    (htts : ∀ t, ∃ a, tts t = Except.ok a) :
    ((∀ p, upload p = Except.ok ()) →
      (synthesize_and_upload paragraphs voice tts upload fname s3pre cdnBase).tempFiles = []) ∧
    (∀ (k : Nat) (e : String), k < paragraphs.length →
      (∀ j, j < k → upload ("temp/" ++ fname (2 + j)) = Except.ok ()) →
      upload ("temp/" ++ fname (2 + k)) = Except.error e →
      (synthesize_and_upload paragraphs voice tts upload fname s3pre cdnBase).tempFiles =
        ["temp/" ++ fname (2 + k)] ∧
      (synthesize_and_upload paragraphs voice tts upload fname s3pre cdnBase).result =
        Except.error e) := by
  constructor
  · intro hup
    exact (synth_loop_all_ok_clean tts upload fname s3pre cdnBase voice htts hup
      (paragraphs.map Prod.snd) 2 [] []).1
  · intro k e hk hok hbad
    exact synth_loop_upload_fail_leak tts upload fname s3pre cdnBase voice e htts
      (paragraphs.map Prod.snd) k 2 [] [] (by simpa using hk) hok hbad

/-- C8 (witness): a fully successful two-paragraph run ends with no temp
file; a one-paragraph run whose upload fails leaks `temp/f2.mp3`. -/
theorem C8_temp_file_lifecycle_witness :
    (synthesize_and_upload [("k1", "a"), ("k2", "b")] "nova" (fun _ => Except.ok "audio")
      (fun _ => Except.ok ()) (fun i => "f" ++ toString i ++ ".mp3") "pre/" "cdn/").tempFiles =
      [] ∧
    ((synthesize_and_upload [("k1", "a")] "nova" (fun _ => Except.ok "audio")
        (fun _ => Except.error "upload failed") (fun i => "f" ++ toString i ++ ".mp3")
        "pre/" "cdn/").tempFiles = ["temp/f2.mp3"] ∧
     (synthesize_and_upload [("k1", "a")] "nova" (fun _ => Except.ok "audio")
        (fun _ => Except.error "upload failed") (fun i => "f" ++ toString i ++ ".mp3")
        "pre/" "cdn/").result = Except.error "upload failed") :=
  ⟨(C8_temp_file_lifecycle [("k1", "a"), ("k2", "b")] "nova" (fun _ => Except.ok "audio")
      (fun _ => Except.ok ()) (fun i => "f" ++ toString i ++ ".mp3") "pre/" "cdn/"
      (fun _ => ⟨"audio", rfl⟩)).1 (fun _ => rfl),
   (C8_temp_file_lifecycle [("k1", "a")] "nova" (fun _ => Except.ok "audio")
      (fun _ => Except.error "upload failed") (fun i => "f" ++ toString i ++ ".mp3")
      "pre/" "cdn/" (fun _ => ⟨"audio", rfl⟩)).2 0 "upload failed" (by decide)
      (fun j hj => absurd hj (Nat.not_lt_zero j)) rfl⟩

/-- C9: line 254 binds exactly two tab handles (one per label), `tab3` is
referenced by the third `with` block but bound nowhere, so running the
`with` blocks in source order enters the first two and stops at the third
with a `NameError` — the AMP-assembly stage is unreachable as written. -/
theorem C9_tab3_unbound :
    tabsAssignTargets.length = tabsLabels.length ∧
    "tab3" ∈ withBlockNames ∧
    "tab3" ∉ tabsAssignTargets ∧
    runWithBlocks tabsAssignTargets withBlockNames 0 =
      ⟨2, some ("NameError: name \x27tab3\x27 is not defined")⟩ := by decide

/-- C10 (counterexample): the claim quantifies over every key whose text
after removing `slide` is not a decimal integer literal and asserts the
assembly aborts; but Python's `int()` accepts more than decimal literals.
The key `slide 2` is inside the claim's scope (its stripped text `" 2"` is
not a decimal integer literal), yet `int(" 2")` is 2, the sort-key
computation does not raise, and the assembly completes with HTML output
instead of aborting. -/
theorem C10_cex_whitespace_key :
    isDecIntLiteral (pyReplace "slide 2" "slide" "") = false ∧
    slideSortKey "slide 2" = some 2 ∧
    (tab3_amp "x<!--INSERT_SLIDES_HERE-->y"
        (Except.ok [("slide 2", [("s 2paragraph1", "B"), ("audio_url 2", "uB")])])).isOk =
      true :=
  ⟨by decide, by decide, rfl⟩

/-- C10 (amended): a top-level key whose text after removing `slide` is
rejected by Python's `int()` (no optional-sign run of Unicode decimal
digits with single underscores between digits, surrounding whitespace
allowed) makes the sort-key computation raise; the surrounding handler
turns this into a user-facing error and the whole assembly aborts with no
HTML output — such a key is not silently skipped.  When every key's
stripped text is accepted by `int()`, the assembly completes, and a
well-formed key whose slide misses the paragraph or audio-URL field is
silently skipped while the others render. -/
theorem C10_int_raise_aborts (template : String)
    (output_data : List (String × List (String × String)))
    (htpl : pyContains template placeholderMarker = true) :
    (∀ k ∈ output_data.map Prod.fst, slideSortKey k = none →
      tab3_amp template (Except.ok output_data) =
        Except.error ("Error: " ++ "invalid literal for int() with base 10")) ∧
    ((∀ k ∈ output_data.map Prod.fst, (slideSortKey k).isSome = true) →
      (tab3_amp template (Except.ok output_data)).isOk = true) ∧
    ampAllSlides [("slide2", [("s2paragraph1", "B"), ("audio_url2", "uB")]),
                  ("slide3", [("s3paragraph1", "C")])] =
      Except.ok (generate_slide "B" "uB") := by
  refine ⟨?_, ?_, ?_⟩
  · intro k hk hbad
    have hfail : ((output_data.map Prod.fst).all (fun x => (slideSortKey x).isSome)) = false := by
      rw [List.all_eq_false]
      exact ⟨k, hk, by simp [hbad]⟩
    simp [tab3_amp, htpl, ampAllSlides, hfail]
  · intro hall
    have hall2 : ((output_data.map Prod.fst).all (fun x => (slideSortKey x).isSome)) = true :=
      List.all_eq_true.mpr hall
    simp [tab3_amp, htpl, ampAllSlides, hall2, Except.isOk, Except.toBool]
  · have base : ampAllSlides [("slide2", [("s2paragraph1", "B"), ("audio_url2", "uB")]),
        ("slide3", [("s3paragraph1", "C")])] =
        Except.ok (("" ++ generate_slide (ampEscape "B") "uB") ++ "") := rfl
    rw [base, string_nil_append, string_append_nil,
      show ampEscape "B" = "B" from by decide]

/-- C10 (witness): the amended theorem applied at the malformed key `slideX`
(assembly aborts with the error) and at a well-formed upload (assembly
completes). -/
theorem C10_int_raise_aborts_witness :
    tab3_amp "x<!--INSERT_SLIDES_HERE-->y" (Except.ok [("slideX", [])]) =
      Except.error ("Error: " ++ "invalid literal for int() with base 10") ∧
    (tab3_amp "x<!--INSERT_SLIDES_HERE-->y"
        (Except.ok [("slide2", [("s2paragraph1", "B"), ("audio_url2", "uB")])])).isOk = true :=
  ⟨(C10_int_raise_aborts "x<!--INSERT_SLIDES_HERE-->y" [("slideX", [])] (by decide)).1
      "slideX" (by decide) (by decide),
   (C10_int_raise_aborts "x<!--INSERT_SLIDES_HERE-->y"
      [("slide2", [("s2paragraph1", "B"), ("audio_url2", "uB")])] (by decide)).2.1
      (by decide)⟩
